import Mathlib

/-!
Verification of the ETL pipeline (staging ingestion, record validation,
anomaly mapping, load engine, batch orchestration) of the `server/app.py`
application, together with the validator variant in `server/models.py` and
the run-trigger concurrency of the Flask endpoints.

The embedding is shallow: Python datetimes are modelled as microseconds
since the Unix epoch (an `Int`), floats as exact rationals (`Rat`), SQL
effects as explicit row lists split into committed and uncommitted
(pending) parts of the open transaction, and the Pydantic validators of
class `Operazione` as a sequential checker that collects one violation per
offending field, mirroring Pydantic v1 semantics (a field that fails
validation is excluded from the `values` dict seen by later validators;
records are database rows, so every field is present, possibly NULL).
-/

namespace ETL

/-! ## Calendar arithmetic

`datetime` values are microseconds since 1970-01-01 00:00:00 UTC.
The civil-calendar conversion follows the standard days-from-civil
algorithm, matching Python `datetime` on its supported range.
-/

/-- Gregorian leap-year test, as used by Python `datetime`. -/
def isLeap (y : Int) : Bool :=
  y % 4 == 0 && (y % 100 != 0 || y % 400 == 0)

/-- Number of days of month `m` (1-12) in year `y`. -/
def daysInMonth (y : Int) (m : Nat) : Nat :=
  if m == 2 then (if isLeap y then 29 else 28)
  else if m == 4 || m == 6 || m == 9 || m == 11 then 30
  else 31

/-- Days since 1970-01-01 of the civil date `y-m-d` (days-from-civil). -/
def daysFromCivil (y : Int) (m d : Int) : Int :=
  let y2 := if m ≤ 2 then y - 1 else y
  let era := (if 0 ≤ y2 then y2 else y2 - 399) / 400
  let yoe := y2 - era * 400
  let mp := (m + 9) % 12
  let doy := (153 * mp + 2) / 5 + d - 1
  let doe := yoe * 365 + yoe / 4 - yoe / 100 + doy
  era * 146097 + doe - 719468

/-- Microseconds since the Unix epoch of a civil datetime. -/
def toEpochMicros (y : Int) (mo d h mi s us : Int) : Int :=
  ((daysFromCivil y mo d) * 86400 + h * 3600 + mi * 60 + s) * 1000000 + us

/-! ## `parse_timestamp` (server/app.py, lines 205-212)

`datetime.strptime` with format `%Y-%m-%d %H:%M:%S.%f`, falling back to
`%Y-%m-%d %H:%M:%S` on `ValueError`.  Directive patterns as compiled by
CPython strptime: `%Y` is exactly four digits, `%m` / `%H` / `%M` / `%S`
are 1-2 digits, `%d` is 1-2 digits or a space followed by a nonzero
digit, `%f` is 1-6 digits (right-padded to microseconds), and the literal
space of the format matches a run of one or more whitespace characters
(strptime substitutes every whitespace literal with a one-or-more
whitespace pattern).  A match whose 1-2-digit component is out of range is
rejected — by the directive pattern itself or by the `datetime`
constructor (month 1-12, day 1-days-in-month, hour 0-23, minute 0-59,
second 0-59, year at least 1); either way the caller sees a `ValueError`,
so the checks are folded into one range test after the match.
-/

/-- Read up to `maxLen` leading decimal digits (at least one); returns the
value and the rest of the input. -/
def parseDigits : List Char → Nat → Nat → Option (Nat × List Char)
  | c :: rest, maxLen + 1, acc =>
    if c.isDigit then
      let acc2 := acc * 10 + (c.toNat - 48)
      match parseDigits rest maxLen acc2 with
      | some r => some r
      | none => some (acc2, rest)
    else none
  | _, _, _ => none

/-- Read exactly `n` decimal digits (the `%Y` pattern is four digits, no
more, no fewer). -/
def parseDigitsExact : List Char → Nat → Nat → Option (Nat × List Char)
  | cs, 0, acc => some (acc, cs)
  | c :: rest, n + 1, acc =>
    if c.isDigit then parseDigitsExact rest n (acc * 10 + (c.toNat - 48))
    else none
  | [], _ + 1, _ => none

/-- Expect a literal character at the head of the input. -/
def parseLit (c : Char) : List Char → Option (List Char)
  | c2 :: rest => if c = c2 then some rest else none
  | [] => none

/-- The day directive: 1-2 digits, or — unlike the other numeric
directives — a space followed by a nonzero digit (the space-padded
alternative of the strptime day pattern). -/
def parseDay : List Char → Option (Nat × List Char)
  | ' ' :: c :: rest =>
    if c.isDigit && c != '0' then some (c.toNat - 48, rest) else none
  | cs => parseDigits cs 2 0

/-- The whitespace class of the strptime pattern (restricted to the ASCII
whitespace characters; exotic Unicode spaces are out of scope). -/
def isPyWhitespace (c : Char) : Bool :=
  c == ' ' || c == '\t' || c == '\n' || c == '\r' || c == '\x0b' || c == '\x0c'

/-- Drop leading whitespace. -/
def skipWs : List Char → List Char
  | c :: rest => if isPyWhitespace c then skipWs rest else c :: rest
  | [] => []

/-- Require one or more whitespace characters (the pattern strptime
substitutes for a literal whitespace in the format). -/
def parseWs1 : List Char → Option (List Char)
  | c :: rest => if isPyWhitespace c then some (skipWs rest) else none
  | [] => none

/-- Parse `YYYY-MM-DD`: a four-digit year and 1-2-digit month and day,
the day also accepting the space-padded single-digit form. -/
def parseDatePart (cs : List Char) : Option (Nat × Nat × Nat × List Char) :=
  match parseDigitsExact cs 4 0 with
  | none => none
  | some (y, cs1) =>
    match parseLit '-' cs1 with
    | none => none
    | some cs2 =>
      match parseDigits cs2 2 0 with
      | none => none
      | some (mo, cs3) =>
        match parseLit '-' cs3 with
        | none => none
        | some cs4 =>
          match parseDay cs4 with
          | none => none
          | some (d, cs5) => some (y, mo, d, cs5)

/-- Parse the whitespace run and `HH:MM:SS` (each component 1-2 digits). -/
def parseTimePart (cs : List Char) : Option (Nat × Nat × Nat × List Char) :=
  match parseWs1 cs with
  | none => none
  | some cs1 =>
    match parseDigits cs1 2 0 with
    | none => none
    | some (h, cs2) =>
      match parseLit ':' cs2 with
      | none => none
      | some cs3 =>
        match parseDigits cs3 2 0 with
        | none => none
        | some (mi, cs4) =>
          match parseLit ':' cs4 with
          | none => none
          | some cs5 =>
            match parseDigits cs5 2 0 with
            | none => none
            | some (s, cs6) => some (h, mi, s, cs6)

/-- Parse the optional `.ffffff` fractional part; `%f` right-pads the 1-6
matched digits with zeros to microseconds. -/
def parseFrac (withFrac : Bool) (cs : List Char) : Option (Nat × List Char) :=
  if withFrac then
    match parseLit '.' cs with
    | none => none
    | some cs1 =>
      match parseDigits cs1 6 0 with
      | none => none
      | some (f, cs2) => some (f * 10 ^ (6 - (cs1.length - cs2.length)), cs2)
  else
    some (0, cs)

/-- The combined range checks applied by the directive patterns and the
`datetime` constructor: month 1-12, day 1-days-in-month, hour 0-23,
minute 0-59, second 0-59, year at least 1 (a four-digit year is at most
9999 already). -/
def componentsOk (y : Int) (mo d h mi s : Nat) : Bool :=
  1 ≤ y && 1 ≤ mo && mo ≤ 12 && 1 ≤ d && d ≤ daysInMonth y mo &&
  h ≤ 23 && mi ≤ 59 && s ≤ 59

/-- Parse `YYYY-MM-DD HH:MM:SS`, optionally followed (`withFrac`) by
`.ffffff`; the entire input must be consumed.  Returns epoch microseconds. -/
def parseFormat (withFrac : Bool) (cs : List Char) : Option Int :=
  match parseDatePart cs with
  | none => none
  | some (y, mo, d, cs1) =>
    match parseTimePart cs1 with
    | none => none
    | some (h, mi, s, cs2) =>
      match parseFrac withFrac cs2 with
      | none => none
      | some (us, cs3) =>
        if cs3.isEmpty && componentsOk y mo d h mi s then
          some (toEpochMicros y mo d h mi s us)
        else none

/-- `parse_timestamp`: try the fractional-seconds format first, then the
plain format (server/app.py lines 205-212). -/
def parse_timestamp (s : String) : Option Int :=
  match parseFormat true s.data with
  | some t => some t
  | none => parseFormat false s.data

/-! ## `validate_timestamp` (server/app.py, lines 214-230) -/

/-- A timestamp input: either a native `datetime` value or text. -/
inductive TsVal where
  | time (t : Int)
  | text (s : String)
deriving DecidableEq, Repr

/-- Failure modes of `validate_timestamp`: the `ValueError` raised by
`strptime` when neither format matches, and the `ValueError` raised when
the parsed timestamp exceeds the tolerance window. -/
inductive TsErr where
  | parseError
  | toleranceError
deriving DecidableEq, Repr

/-- `validate_timestamp(timestamp, tolerance_minutes)`: native datetimes
are taken as-is, text is parsed with `parse_timestamp`; then the result is
rejected if it is strictly later than `now + timedelta(minutes=tol)`.
`now` (the value of `datetime.utcnow()`) is passed explicitly. -/
def validate_timestamp (timestamp : TsVal) (tolerance_minutes : Int) (now : Int) :
    Except TsErr Int :=
  let parsed : Except TsErr Int :=
    match timestamp with
    | .time t => .ok t
    | .text s =>
      match parse_timestamp s with
      | some t => .ok t
      | none => .error .parseError
  match parsed with
  | .error e => .error e
  | .ok t =>
    if now + tolerance_minutes * 60000000 < t then .error .toleranceError
    else .ok t

/-! ## The record validator: Pydantic model `Operazione`
(server/app.py, lines 82-144)

All twelve fields of the `server/app.py` variant are `Optional`.  Records
reach validation as rows of a `SELECT *` on `raw_operazione`, so every
field is present (possibly NULL) and every validator runs.  Pydantic v1
semantics: validators run per field in declaration order, each failure is
collected (not short-circuited), and a field that failed validation is
excluded from the `values` dict seen by the validators of later fields.
-/

/-- The violation recorded for one offending field: the field name
(`error['loc'][-1]`) and the message (`error['msg']`). -/
structure Violation where
  field : String
  msg : String
deriving DecidableEq, Repr

/-- A timestamp column value as handed to the load engine: SQL NULL, raw
text (sanitized path keeps the unparsed string), or a datetime. -/
inductive TsOut where
  | null
  | text (s : String)
  | time (t : Int)
deriving DecidableEq, Repr

/-- One entry of the `anomalia` list (Pydantic model `Anomalia`). -/
structure Anomalia where
  id : Int
deriving DecidableEq, Repr

/-- A raw record, as fetched from the `raw_operazione` staging table or
posted to the ingestion endpoint: every field possibly NULL. -/
structure RawOperazione where
  id_ordine : Option Int
  codice_pezzo : Option String
  codice_macchinario : Option String
  codice_operatore : Option String
  timestamp_inizio : Option TsVal
  timestamp_fine : Option TsVal
  tipo_operazione : Option String
  peso_effettivo : Option Rat
  temperatura_effettiva : Option Rat
  numero_pezzi_ora : Option Int
  tipo_fermo : Option String
  anomalia : Option (List Anomalia)
deriving DecidableEq, Repr

/-- The dict handed to the load engine: `operazione.dict()` after a fully
successful validation, or `{**data, **{field: None for failing fields}}`
after failures. -/
structure OperDict where
  id_ordine : Option Int
  codice_pezzo : Option String
  codice_macchinario : Option String
  codice_operatore : Option String
  timestamp_inizio : TsOut
  timestamp_fine : TsOut
  tipo_operazione : Option String
  peso_effettivo : Option Rat
  temperatura_effettiva : Option Rat
  numero_pezzi_ora : Option Int
  tipo_fermo : Option String
  anomalia : Option (List Anomalia)
deriving DecidableEq, Repr

/-- The `validate_and_parse_timestamp` pre-validator on one timestamp
field: a NULL value makes `strptime` raise a TypeError (caught by Pydantic
like a ValueError), otherwise `validate_timestamp` runs with its default
tolerance of 60 minutes and its ValueErrors are re-raised as
`{field.name} non valido: {e}`.  (The literal input text that Python
interpolates into the strptime message is omitted.) -/
def validate_and_parse_timestamp (fieldName : String) (v : Option TsVal) (now : Int) :
    Except String Int :=
  match v with
  | none => .error "strptime() argument 1 must be str, not None"
  | some ts =>
    match validate_timestamp ts 60 now with
    | .ok t => .ok t
    | .error .parseError =>
      .error (fieldName ++ " non valido: time data does not match format")
    | .error .toleranceError =>
      .error (fieldName ++ " non valido: Timestamp fuori dalla tolleranza di 60 minuti")

/-- `tipo_operazione_valido`: the declared type must be one of
forgiatura / cnc (a NULL value is likewise not in the set). -/
def tipo_operazione_valido (v : Option String) : Bool :=
  match v with
  | some s => s == "forgiatura" || s == "cnc"
  | none => false

/-- `peso_effettivo_range` (server/app.py, lines 108-117): when the
validated `tipo_operazione` is forgiatura, the weight must be present and
within [0, 1000].  `tipoInVals` is `values.get('tipo_operazione')`,
which is `none` when the type field itself failed validation. -/
def peso_effettivo_range (tipoInVals : Option String) (v : Option Rat) : Bool :=
  if tipoInVals == some "forgiatura" then
    match v with
    | some q => decide (0 ≤ q) && decide (q ≤ 1000)
    | none => false
  else true

/-- `temperatura_effettiva_range` (server/app.py, lines 119-128): when the
validated type is forgiatura the validator raises for
`v is None or not (v < 700 or v > 1200)` — i.e. it accepts exactly the
temperatures strictly below 700 or strictly above 1200, rejecting every
value in the band [700, 1200]. -/
def temperatura_effettiva_range (tipoInVals : Option String) (v : Option Rat) : Bool :=
  if tipoInVals == some "forgiatura" then
    match v with
    | some q => decide (q < 700) || decide (q > 1200)
    | none => false
  else true

/-- `temperatura_effettiva_range` of the `server/models.py` variant
(lines 53-62): accepts the temperature iff present and within [-50, 150]. -/
def temperatura_effettiva_range_models (tipoInVals : Option String) (v : Option Rat) : Bool :=
  if tipoInVals == some "forgiatura" then
    match v with
    | some q => decide (-50 ≤ q) && decide (q ≤ 150)
    | none => false
  else true

/-- The `values` entry for `tipo_operazione` seen by the weight and
temperature validators: present only when the field itself validated. -/
def tipoInValues (r : RawOperazione) : Option String :=
  if tipo_operazione_valido r.tipo_operazione then r.tipo_operazione else none

/-- The violations collected by `Operazione(**data)`, in Pydantic field
order: timestamps, then type, then weight, then temperature.  The four
identifier fields, `numero_pezzi_ora` and `tipo_fermo` have no validator,
and well-typed `anomalia` entries always satisfy `anomalia_valida`. -/
def violationsOf (now : Int) (r : RawOperazione) : List Violation :=
  (match validate_and_parse_timestamp "timestamp_inizio" r.timestamp_inizio now with
   | .error m => [⟨"timestamp_inizio", m⟩]
   | .ok _ => []) ++
  (match validate_and_parse_timestamp "timestamp_fine" r.timestamp_fine now with
   | .error m => [⟨"timestamp_fine", m⟩]
   | .ok _ => []) ++
  (if tipo_operazione_valido r.tipo_operazione then []
   else [⟨"tipo_operazione", "Tipo operazione non riconosciuto"⟩]) ++
  (if peso_effettivo_range (tipoInValues r) r.peso_effettivo then []
   else [⟨"peso_effettivo", "Peso fuori range"⟩]) ++
  (if temperatura_effettiva_range (tipoInValues r) r.temperatura_effettiva then []
   else [⟨"temperatura_effettiva", "Temperatura fuori range"⟩])

/-- A raw timestamp value as it appears in the sanitized dict (the raw
string is not parsed on this path). -/
def rawTsOut : Option TsVal → TsOut
  | none => .null
  | some (.text s) => .text s
  | some (.time t) => .time t

/-- `operazione.dict()` after a fully successful validation: parsed
timestamps, all other fields as validated (unchanged). -/
def normalizedOf (now : Int) (r : RawOperazione) : OperDict :=
  { id_ordine := r.id_ordine
    codice_pezzo := r.codice_pezzo
    codice_macchinario := r.codice_macchinario
    codice_operatore := r.codice_operatore
    timestamp_inizio :=
      match validate_and_parse_timestamp "timestamp_inizio" r.timestamp_inizio now with
      | .ok t => .time t
      | .error _ => .null
    timestamp_fine :=
      match validate_and_parse_timestamp "timestamp_fine" r.timestamp_fine now with
      | .ok t => .time t
      | .error _ => .null
    tipo_operazione := r.tipo_operazione
    peso_effettivo := r.peso_effettivo
    temperatura_effettiva := r.temperatura_effettiva
    numero_pezzi_ora := r.numero_pezzi_ora
    tipo_fermo := r.tipo_fermo
    anomalia := r.anomalia }

/-- `{**data, **{err['loc'][-1]: None for err in errors}}`: the raw record
with each offending field forced to None, all other fields kept raw. -/
def sanitizedOf (now : Int) (r : RawOperazione) : OperDict :=
  { id_ordine := r.id_ordine
    codice_pezzo := r.codice_pezzo
    codice_macchinario := r.codice_macchinario
    codice_operatore := r.codice_operatore
    timestamp_inizio :=
      match validate_and_parse_timestamp "timestamp_inizio" r.timestamp_inizio now with
      | .ok _ => rawTsOut r.timestamp_inizio
      | .error _ => .null
    timestamp_fine :=
      match validate_and_parse_timestamp "timestamp_fine" r.timestamp_fine now with
      | .ok _ => rawTsOut r.timestamp_fine
      | .error _ => .null
    tipo_operazione :=
      if tipo_operazione_valido r.tipo_operazione then r.tipo_operazione else none
    peso_effettivo :=
      if peso_effettivo_range (tipoInValues r) r.peso_effettivo then r.peso_effettivo
      else none
    temperatura_effettiva :=
      if temperatura_effettiva_range (tipoInValues r) r.temperatura_effettiva then
        r.temperatura_effettiva
      else none
    numero_pezzi_ora := r.numero_pezzi_ora
    tipo_fermo := r.tipo_fermo
    anomalia := r.anomalia }

/-- Validation of one raw record, as done at the top of the transfer loop
in `process_and_transfer_to_mysql` (server/app.py, lines 483-497):
`Operazione(**data)` plus the sanitize-on-failure policy.  Returns the
collected violations (empty on success) and the dict handed to the load
engine. -/
def validateOperazione (now : Int) (r : RawOperazione) : List Violation × OperDict :=
  if (violationsOf now r).isEmpty then (violationsOf now r, normalizedOf now r)
  else (violationsOf now r, sanitizedOf now r)

/-- The raw image of a normalized record: re-submitting
`operazione.dict()` to validation (datetimes are native values). -/
def toRaw (d : OperDict) : RawOperazione :=
  { id_ordine := d.id_ordine
    codice_pezzo := d.codice_pezzo
    codice_macchinario := d.codice_macchinario
    codice_operatore := d.codice_operatore
    timestamp_inizio :=
      match d.timestamp_inizio with
      | .null => none
      | .text s => some (.text s)
      | .time t => some (.time t)
    timestamp_fine :=
      match d.timestamp_fine with
      | .null => none
      | .text s => some (.text s)
      | .time t => some (.time t)
    tipo_operazione := d.tipo_operazione
    peso_effettivo := d.peso_effettivo
    temperatura_effettiva := d.temperatura_effettiva
    numero_pezzi_ora := d.numero_pezzi_ora
    tipo_fermo := d.tipo_fermo
    anomalia := d.anomalia }

/-! ## The anomaly mapper (server/app.py, lines 75-80 and 488-492) -/

/-- `FIELD_TO_ANOMALIA_ID.get(field, 999)`: the fixed field-to-code table
with default code 999 for unmapped fields. -/
def FIELD_TO_ANOMALIA_ID (f : String) : Int :=
  if f == "timestamp_fine" then 1
  else if f == "peso_effettivo" then 2
  else if f == "temperatura_effettiva" then 3
  else if f == "anomalia" then 4
  else 999

/-- The anomaly list built from validation violations: one entry per
violation with the mapped code and the note `{field}: {message}`. -/
def anomalieOf (vs : List Violation) : List (Int × String) :=
  vs.map (fun v => (FIELD_TO_ANOMALIA_ID v.field, v.field ++ ": " ++ v.msg))

/-! ## The load engine and the MySQL target store
(server/app.py, lines 269-335)
-/

/-- The six columns of the `operazioni` INSERT. -/
structure OpCols where
  id_ordine : Option Int
  codice_pezzo : Option String
  codice_macchinario : Option String
  codice_operatore : Option String
  timestamp_inizio : TsOut
  timestamp_fine : TsOut
deriving DecidableEq, Repr

/-- A row of the MySQL target store.  The constant-NULL `id_anomalia`
column of the `forgiatura` INSERT is not carried. -/
inductive Row where
  | operazioni (idOp : Nat) (cols : OpCols)
  | forgiatura (idOp : Nat) (peso temperatura : Option Rat)
  | cnc (idOp : Nat) (numero : Option Int) (fermo : Option String)
  | anomaliaOperazione (idAnom : Int) (idOp : Nat) (note : String)
deriving DecidableEq, Repr

/-- The MySQL target store as seen through one connection: `committed`
rows are visible outside the connection, `pending` rows were inserted in
the currently open transaction and become visible only on commit.
`nextId` is the next AUTO_INCREMENT `id_operazione` (ids are not reused
after a rollback). -/
structure MyDB where
  committed : List Row
  pending : List Row
  nextId : Nat
deriving DecidableEq, Repr

/-- `connection.commit()`: pending rows become durable. -/
def commitDB (db : MyDB) : MyDB :=
  ⟨db.committed ++ db.pending, [], db.nextId⟩

/-- `connection.rollback()`: pending rows are discarded. -/
def rollbackDB (db : MyDB) : MyDB :=
  { db with pending := [] }

/-- An observable database action of the load engine. -/
inductive Effect where
  | exec (r : Row)
  | commit
  | rollback
deriving DecidableEq, Repr

/-- What `insert_operation_data` returns (the Python triple), together
with the resulting store and the trace of effects it performed. -/
structure InsertResult where
  db : MyDB
  success : Bool
  error : Option String
  id_operazione : Option Nat
  trace : List Effect
deriving DecidableEq, Repr

/-- The `operazioni` columns taken from the dict. -/
def opColsOf (d : OperDict) : OpCols :=
  ⟨d.id_ordine, d.codice_pezzo, d.codice_macchinario, d.codice_operatore,
   d.timestamp_inizio, d.timestamp_fine⟩

/-- The `anomalia_operazione` rows the engine inserts for the record's own
`anomalia` list, each with note "Anomalia registrata"
(server/app.py, lines 318-326). -/
def anomaliaListRows (l : Option (List Anomalia)) (idOp : Nat) : List Row :=
  match l with
  | some l2 => l2.map (fun a => Row.anomaliaOperazione a.id idOp "Anomalia registrata")
  | none => []

/-- `insert_operation_data(connection, cursor, data)`
(server/app.py, lines 269-335).  In order: execute the `operazioni`
INSERT, take `cursor.lastrowid`, insert the type-specific detail row —
returning `(False, "Tipo operazione non riconosciuto", None)` with neither
commit nor rollback when the type is neither forgiatura nor cnc — insert
the `anomalia_operazione` rows for the record's `anomalia` list, then
`connection.commit()`.  Any database exception (modelled by
`dbOk = false`) triggers `connection.rollback()` and
`(False, str(e), None)`. -/
def insert_operation_data (db : MyDB) (data : OperDict) (dbOk : Bool) : InsertResult :=
  if dbOk then
    let idOp := db.nextId
    let opRow := Row.operazioni idOp (opColsOf data)
    let db1 : MyDB := { db with pending := db.pending ++ [opRow], nextId := db.nextId + 1 }
    match data.tipo_operazione with
    | some "forgiatura" =>
      let detRow := Row.forgiatura idOp data.peso_effettivo data.temperatura_effettiva
      let anomRows := anomaliaListRows data.anomalia idOp
      let db2 : MyDB := { db1 with pending := db1.pending ++ [detRow] ++ anomRows }
      { db := commitDB db2, success := true, error := none, id_operazione := some idOp,
        trace := [.exec opRow, .exec detRow] ++ anomRows.map .exec ++ [.commit] }
    | some "cnc" =>
      let detRow := Row.cnc idOp data.numero_pezzi_ora data.tipo_fermo
      let anomRows := anomaliaListRows data.anomalia idOp
      let db2 : MyDB := { db1 with pending := db1.pending ++ [detRow] ++ anomRows }
      { db := commitDB db2, success := true, error := none, id_operazione := some idOp,
        trace := [.exec opRow, .exec detRow] ++ anomRows.map .exec ++ [.commit] }
    | _ =>
      { db := db1, success := false, error := some "Tipo operazione non riconosciuto",
        id_operazione := none, trace := [.exec opRow] }
  else
    { db := rollbackDB db, success := false, error := some "Errore MySQL",
      id_operazione := none, trace := [.rollback] }

/-! ## The batch orchestrator: `process_and_transfer_to_mysql`
(server/app.py, lines 447-573)
-/

/-- The outcome of the transfer loop for one staged record. -/
inductive RecOutcome where
  | inserted (idOp : Nat)
  | failed (msg : String)
deriving DecidableEq, Repr

/-- The violation-annotation rows the orchestrator inserts after a
successful insert of a record that had validation failures
(server/app.py, lines 505-514). -/
def violationRows (vs : List Violation) (idOp : Nat) : List Row :=
  (anomalieOf vs).map (fun am => Row.anomaliaOperazione am.1 idOp am.2)

/-- One iteration of the transfer loop for a single staged record:
validate (sanitizing on failure), insert via the load engine, then on
success execute one `anomalia_operazione` INSERT per violation (these stay
pending: the loop then commits only the Postgres side).  The Postgres
status updates (PROCESSED / ERROR / delete) do not touch the MySQL target
store and are not modelled.  `rec.2` is false when the MySQL insert
raises. -/
def processRecord (now : Int) (db : MyDB) (rec : RawOperazione × Bool) :
    MyDB × RecOutcome :=
  let vd := validateOperazione now rec.1
  let res := insert_operation_data db vd.2 rec.2
  match res.id_operazione with
  | some idOp =>
    ({ res.db with pending := res.db.pending ++ violationRows vd.1 idOp },
     .inserted idOp)
  | none => (res.db, .failed (res.error.getD ""))

/-- The transfer loop folded over a batch; returns the final store and the
per-record outcomes. -/
def runBatchAux (now : Int) (db : MyDB) :
    List (RawOperazione × Bool) → MyDB × List RecOutcome
  | [] => (db, [])
  | rec :: rest =>
    let step := processRecord now db rec
    let tail := runBatchAux now step.1 rest
    (tail.1, step.2 :: tail.2)

/-- A whole batch run of `process_and_transfer_to_mysql`: starts with an
empty transaction (AUTO_INCREMENT from 1); at the end the connection is
closed, which discards any rows still pending (mysql-connector rolls back
uncommitted work on close). -/
def runBatch (now : Int) (recs : List (RawOperazione × Bool)) :
    MyDB × List RecOutcome :=
  let res := runBatchAux now ⟨[], [], 1⟩ recs
  ({ res.1 with pending := [] }, res.2)

/-! ## Staging ingestion: `main_etl_postgres`
(server/app.py, lines 375-442)
-/

/-- The twelve columns of the `raw_operazione` INSERT performed by the
staging ingestion. -/
structure RawOpRow where
  id_ordine : Option Int
  codice_pezzo : Option String
  codice_macchinario : Option String
  codice_operatore : Option String
  timestamp_inizio : Option TsVal
  timestamp_fine : Option TsVal
  peso_effettivo : Option Rat
  temperatura_effettiva : Option Rat
  id_anomalia : Option Int
  numero_pezzi_ora : Option Int
  tipo_fermo : Option String
  tipo_operazione : Option String
deriving DecidableEq, Repr

/-- The `insert_values` tuple built by `main_etl_postgres`
(server/app.py, lines 399-412): every column is passed through except
`id_anomalia`, which is `data['anomalia'][0]['id'] if data.get('anomalia')
else None` — the first entry of a present nonempty anomalia list,
otherwise NULL. -/
def ingestInsertValues (data : RawOperazione) : RawOpRow :=
  { id_ordine := data.id_ordine
    codice_pezzo := data.codice_pezzo
    codice_macchinario := data.codice_macchinario
    codice_operatore := data.codice_operatore
    timestamp_inizio := data.timestamp_inizio
    timestamp_fine := data.timestamp_fine
    peso_effettivo := data.peso_effettivo
    temperatura_effettiva := data.temperatura_effettiva
    id_anomalia :=
      match data.anomalia with
      | some (a :: _) => some a.id
      | some [] => none
      | none => none
    numero_pezzi_ora := data.numero_pezzi_ora
    tipo_fermo := data.tipo_fermo
    tipo_operazione := data.tipo_operazione }

/-! ## The run trigger: `trigger_etl` and the background run
(server/app.py, lines 154-159, 375-378, 778-799)

Two near-simultaneous POSTs to `/run-etl` are modelled as an interleaving
of atomic steps.  A handler step is the whole body of `trigger_etl` up to
returning the response — generously treating the read of
`etl_status['running']` and `Thread.start()` as one atomic block.  A
batch-start step is the first statement of the spawned
`main_etl_postgres`, which sets `etl_status['running'] = True`.
-/

/-- State of the trigger system: the global running flag, each request's
response (`some true` = 202 accepted, `some false` = 400 already-running),
whether each request spawned its thread, and whether each spawned batch
started executing. -/
structure TrigSys where
  running : Bool
  resp1 : Option Bool
  resp2 : Option Bool
  spawned1 : Bool
  spawned2 : Bool
  started1 : Bool
  started2 : Bool
deriving DecidableEq, Repr

/-- The trigger state space is finite (needed to decide its invariants). -/
instance : Fintype TrigSys :=
  Fintype.ofEquiv (Bool × Option Bool × Option Bool × Bool × Bool × Bool × Bool)
    { toFun := fun x => ⟨x.1, x.2.1, x.2.2.1, x.2.2.2.1, x.2.2.2.2.1, x.2.2.2.2.2.1,
        x.2.2.2.2.2.2⟩
      invFun := fun s =>
        (s.running, s.resp1, s.resp2, s.spawned1, s.spawned2, s.started1, s.started2)
      left_inv := fun _ => rfl
      right_inv := fun _ => rfl }

/-- The atomic actions of the two handlers and the two spawned batches. -/
inductive TrigAct where
  | handler1
  | handler2
  | batchStart1
  | batchStart2
deriving DecidableEq, Repr

/-- The four actions form a finite type. -/
instance : Fintype TrigAct :=
  { elems := { val := ↑[TrigAct.handler1, .handler2, .batchStart1, .batchStart2],
               nodup := by decide }
    complete := by intro a; cases a <;> decide }

/-- One atomic step: a handler rejects with 400 when it observes
`running = True`, otherwise answers 202 and spawns its thread; a spawned
batch, when scheduled, sets `running = True` and begins executing. -/
def trigStep (s : TrigSys) : TrigAct → TrigSys
  | .handler1 =>
    if s.resp1 = none then
      if s.running then { s with resp1 := some false }
      else { s with resp1 := some true, spawned1 := true }
    else s
  | .handler2 =>
    if s.resp2 = none then
      if s.running then { s with resp2 := some false }
      else { s with resp2 := some true, spawned2 := true }
    else s
  | .batchStart1 =>
    if s.spawned1 && !s.started1 then { s with running := true, started1 := true }
    else s
  | .batchStart2 =>
    if s.spawned2 && !s.started2 then { s with running := true, started2 := true }
    else s

/-- Process start: idle status, no requests answered. -/
def trigInit : TrigSys :=
  ⟨false, none, none, false, false, false, false⟩

/-- Execution of a schedule of atomic steps from process start. -/
def runSched (acts : List TrigAct) : TrigSys :=
  acts.foldl trigStep trigInit

/-- Invariant of the trigger system: a request not answered 202 has not
spawned its thread, and a batch starts only after its thread was spawned. -/
def trigInv (s : TrigSys) : Bool :=
  (if s.resp1 = some true then true else !s.spawned1) &&
  (if s.resp2 = some true then true else !s.spawned2) &&
  (!s.started1 || s.spawned1) &&
  (!s.started2 || s.spawned2)

/-! ## Auxiliary notions and concrete test records -/

/-- The empty target transaction at the start of a batch run
(AUTO_INCREMENT ids start at 1). -/
def dbEmpty : MyDB := ⟨[], [], 1⟩

/-- The named field of the dict carries NULL (only the five fields that
can carry a violation are constrained). -/
def fieldNulled (d : OperDict) (f : String) : Prop :=
  (f = "timestamp_inizio" → d.timestamp_inizio = .null) ∧
  (f = "timestamp_fine" → d.timestamp_fine = .null) ∧
  (f = "tipo_operazione" → d.tipo_operazione = none) ∧
  (f = "peso_effettivo" → d.peso_effettivo = none) ∧
  (f = "temperatura_effettiva" → d.temperatura_effettiva = none)

/-- A minimal fully valid cnc record (native epoch timestamps). -/
def recCnc : RawOperazione :=
  { id_ordine := none, codice_pezzo := none, codice_macchinario := none,
    codice_operatore := none, timestamp_inizio := some (.time 0),
    timestamp_fine := some (.time 0), tipo_operazione := some "cnc",
    peso_effettivo := none, temperatura_effettiva := none,
    numero_pezzi_ora := none, tipo_fermo := none, anomalia := none }

/-- A record whose only invalid field is its unrecognized operation type. -/
def recSaldatura : RawOperazione :=
  { recCnc with tipo_operazione := some "saldatura" }

/-- A forging record whose only violation is the weight 1500 (its
temperature 650 is accepted by the app.py validator since 650 < 700). -/
def recPeso1500 : RawOperazione :=
  { recCnc with
    tipo_operazione := some "forgiatura"
    peso_effettivo := some 1500
    temperatura_effettiva := some 650 }

/-- A valid forging record except for the temperature 900, which lies
inside the rejected band [700, 1200]. -/
def recTemp900 : RawOperazione :=
  { recCnc with
    tipo_operazione := some "forgiatura"
    peso_effettivo := some 500
    temperatura_effettiva := some 900 }

/-- The same forging record with temperature 5000, far outside every
configured band, which the app.py validator accepts. -/
def recTemp5000 : RawOperazione :=
  { recTemp900 with temperatura_effettiva := some 5000 }

/-- The example record of the specification: forging, weight 1500,
temperature 900, text timestamps on 2024-01-01. -/
def rec6 : RawOperazione :=
  { id_ordine := some 7, codice_pezzo := some "P1",
    codice_macchinario := some "M1", codice_operatore := some "O1",
    timestamp_inizio := some (.text "2024-01-01 10:00:00"),
    timestamp_fine := some (.text "2024-01-01 10:05:00"),
    tipo_operazione := some "forgiatura", peso_effettivo := some 1500,
    temperatura_effettiva := some 900, numero_pezzi_ora := none,
    tipo_fermo := none, anomalia := none }

/-- A clock value at which the example record's timestamps pass the
tolerance check: 2024-01-01 10:00:00 UTC. -/
def now6 : Int := toEpochMicros 2024 1 1 10 0 0 0

/-- A dict with an unrecognized operation type, as handed to the load
engine. -/
def dictSaldatura : OperDict :=
  { id_ordine := none, codice_pezzo := none, codice_macchinario := none,
    codice_operatore := none, timestamp_inizio := .null, timestamp_fine := .null,
    tipo_operazione := some "saldatura", peso_effettivo := none,
    temperatura_effettiva := none, numero_pezzi_ora := none,
    tipo_fermo := none, anomalia := none }

/-- A minimal cnc dict, as handed to the load engine. -/
def dictCnc : OperDict :=
  { dictSaldatura with tipo_operazione := some "cnc" }

end ETL

namespace ETL

/-- C2: the temperatura validator of server/app.py rejects 900 — a value
inside the 700-1200 band named by the specification — as the sole
violation of an otherwise valid forging record, yet accepts 5000, which
lies outside every configured band; the server/models.py variant accepts
the temperature exactly when it is present and within [-50, 150]. -/
theorem C2_temperatura_band :
    (validateOperazione 0 recTemp900).1 =
      [⟨"temperatura_effettiva", "Temperatura fuori range"⟩] ∧
    (validateOperazione 0 recTemp5000).1 = [] ∧
    temperatura_effettiva_range (some "forgiatura") (some 900) = false ∧
    temperatura_effettiva_range (some "forgiatura") (some 5000) = true ∧
    temperatura_effettiva_range (some "forgiatura") none = false ∧
    (∀ v : Option Rat,
      temperatura_effettiva_range_models (some "forgiatura") v = true ↔
      ∃ q : Rat, v = some q ∧ -50 ≤ q ∧ q ≤ 150) := by
  refine ⟨by decide, by decide, by decide, by decide, by decide, fun v => ?_⟩
  cases v with
  | none => simp [temperatura_effettiva_range_models]
  | some q => simp [temperatura_effettiva_range_models]

/-- C6: on the specification's example record the code produces two
violations — the weight 1500 out of [0, 1000] and the temperature 900
(rejected by the inverted band check) — and, after the insert of the
doubly sanitized record, two anomaly rows with codes 2 and 3, not the
single peso-coded row the specification expects. -/
theorem C6_example_record :
    (validateOperazione now6 rec6).1 =
      [⟨"peso_effettivo", "Peso fuori range"⟩,
       ⟨"temperatura_effettiva", "Temperatura fuori range"⟩] ∧
    (processRecord now6 dbEmpty (rec6, true)).2 = .inserted 1 ∧
    (processRecord now6 dbEmpty (rec6, true)).1.pending =
      [Row.anomaliaOperazione 2 1 "peso_effettivo: Peso fuori range",
       Row.anomaliaOperazione 3 1 "temperatura_effettiva: Temperatura fuori range"] ∧
    Row.forgiatura 1 none none ∈ (processRecord now6 dbEmpty (rec6, true)).1.committed := by
  refine ⟨by decide, by decide, by decide, by decide⟩

/-- C10: the staging ingestion persists only the identifier of the first
entry of a present nonempty `anomalia` list — the produced row does not
depend on the remaining entries — and persists NULL for an absent or
empty list. -/
theorem C10_ingest_first_anomalia (data : RawOperazione) (a : Anomalia)
    (rest : List Anomalia) :
    (ingestInsertValues { data with anomalia := some (a :: rest) }).id_anomalia =
      some a.id ∧
    ingestInsertValues { data with anomalia := some (a :: rest) } =
      ingestInsertValues { data with anomalia := some [a] } ∧
    (ingestInsertValues { data with anomalia := some [] }).id_anomalia = none ∧
    (ingestInsertValues { data with anomalia := none }).id_anomalia = none :=
  ⟨rfl, rfl, rfl, rfl⟩

/-- One step of the trigger system preserves its invariant. -/
theorem trigStep_inv (s : TrigSys) (a : TrigAct) (h : trigInv s = true) :
    trigInv (trigStep s a) = true := by
  cases a <;>
    simp only [trigStep] <;>
    split_ifs <;>
    simp_all [trigInv, Bool.and_eq_true, Bool.or_eq_true] <;>
    rcases h with ⟨⟨⟨h1, h2⟩, h3⟩, h4⟩ <;>
    simp_all

/-- The trigger-system invariant holds along every schedule. -/
theorem trigInv_fold (acts : List TrigAct) : ∀ s : TrigSys, trigInv s = true →
    trigInv (acts.foldl trigStep s) = true := by
  induction acts with
  | nil => intro s h; exact h
  | cons a rest ih => intro s h; exact ih _ (trigStep_inv s a h)

/-- C9 fails on the code: in the interleaving where both handlers run
before either spawned batch has set the running flag, both triggers
observe idle, both are answered 202, and both batches execute. -/
theorem C9_counterexample :
    (runSched [.handler1, .handler2, .batchStart1, .batchStart2]).resp1 = some true ∧
    (runSched [.handler1, .handler2, .batchStart1, .batchStart2]).resp2 = some true ∧
    (runSched [.handler1, .handler2, .batchStart1, .batchStart2]).started1 = true ∧
    (runSched [.handler1, .handler2, .batchStart1, .batchStart2]).started2 = true := by
  refine ⟨by decide, by decide, by decide, by decide⟩

/-- C9 amended: the running check (in the request handler) and the
transition to running (first statement of the spawned thread) are separate
steps, so two near-simultaneous triggers can both be accepted and both
batches can run.  What does hold: a trigger rejected with
"already running" never spawns a thread, hence its batch never executes;
and in the schedule where the first batch sets the flag before the second
handler runs, the second trigger is rejected and its batch never starts. -/
theorem C9_reject_means_no_batch (acts : List TrigAct) :
    (((runSched acts).resp1 = some false → (runSched acts).started1 = false) ∧
     ((runSched acts).resp2 = some false → (runSched acts).started2 = false)) ∧
    ((runSched [.handler1, .batchStart1, .handler2]).resp2 = some false ∧
     (runSched [.handler1, .batchStart1, .handler2]).started2 = false) := by
  have hinv : trigInv (runSched acts) = true := trigInv_fold acts trigInit (by decide)
  simp only [trigInv, Bool.and_eq_true, Bool.or_eq_true] at hinv
  obtain ⟨⟨⟨hA, hB⟩, hC⟩, hD⟩ := hinv
  refine ⟨⟨fun h1 => ?_, fun h2 => ?_⟩, by decide, by decide⟩
  · rw [h1] at hA
    simp at hA
    rcases hC with hC | hC
    · simpa using hC
    · simp_all
  · rw [h2] at hB
    simp at hB
    rcases hD with hD | hD
    · simpa using hD
    · simp_all

/-- Witness for C9: under the sequential schedule, the second trigger is
rejected, and by the amended theorem its batch never starts. -/
theorem C9_reject_means_no_batch_witness :
    (runSched [.handler1, .batchStart1, .handler2]).started2 = false :=
  (C9_reject_means_no_batch [.handler1, .batchStart1, .handler2]).1.2 (by decide)

/-- On an unrecognized operation type the load engine returns its failure
triple only after executing the `operazioni` INSERT: the operation row is
left pending in the open transaction, with neither commit nor rollback. -/
theorem insert_unrecognized_eq (db : MyDB) (d : OperDict)
    (h1 : d.tipo_operazione ≠ some "forgiatura")
    (h2 : d.tipo_operazione ≠ some "cnc") :
    insert_operation_data db d true =
      { db := { db with
                pending := db.pending ++ [Row.operazioni db.nextId (opColsOf d)]
                nextId := db.nextId + 1 }
        success := false
        error := some "Tipo operazione non riconosciuto"
        id_operazione := none
        trace := [.exec (Row.operazioni db.nextId (opColsOf d))] } := by
  unfold insert_operation_data
  rw [if_pos rfl]
  split
  · rename_i heq; exact absurd heq h1
  · rename_i heq; exact absurd heq h2
  · rfl

/-- C3 fails on the code: for an unrecognized operation type the engine
returns the failure only after the `operazioni` INSERT has been executed
(the trace records it and the operation row sits in the pending
transaction); moreover, since this path neither commits nor rolls back,
the orphan row is even committed by the next successful record, so an
operation row for the unrecognized record ends up visible in the target. -/
theorem C3_counterexample :
    (insert_operation_data dbEmpty dictSaldatura true).success = false ∧
    (insert_operation_data dbEmpty dictSaldatura true).error =
      some "Tipo operazione non riconosciuto" ∧
    (insert_operation_data dbEmpty dictSaldatura true).trace =
      [.exec (Row.operazioni 1 (opColsOf dictSaldatura))] ∧
    (insert_operation_data dbEmpty dictSaldatura true).db.pending =
      [Row.operazioni 1 (opColsOf dictSaldatura)] ∧
    Row.operazioni 1 ⟨none, none, none, none, .time 0, .time 0⟩ ∈
      (runBatch 0 [(recSaldatura, true), (recCnc, true)]).1.committed := by
  refine ⟨by decide, by decide, by decide, by decide, by decide⟩

/-- C3 amended: for an unrecognized operation type the engine fails with
"Tipo operazione non riconosciuto" only after performing the
operation-table insert: the operation row is written (uncommitted) to the
open transaction, no detail or anomaly row follows, and this path performs
neither commit nor rollback. -/
theorem C3_unrecognized_type_after_step1 (db : MyDB) (d : OperDict)
    (h1 : d.tipo_operazione ≠ some "forgiatura")
    (h2 : d.tipo_operazione ≠ some "cnc") :
    insert_operation_data db d true =
      { db := { db with
                pending := db.pending ++ [Row.operazioni db.nextId (opColsOf d)]
                nextId := db.nextId + 1 }
        success := false
        error := some "Tipo operazione non riconosciuto"
        id_operazione := none
        trace := [.exec (Row.operazioni db.nextId (opColsOf d))] } :=
  insert_unrecognized_eq db d h1 h2

/-- Witness for the amended C3 at a concrete dict. -/
theorem C3_unrecognized_type_after_step1_witness :
    insert_operation_data dbEmpty dictSaldatura true =
      { db := { dbEmpty with
                pending := dbEmpty.pending ++
                  [Row.operazioni dbEmpty.nextId (opColsOf dictSaldatura)]
                nextId := dbEmpty.nextId + 1 }
        success := false
        error := some "Tipo operazione non riconosciuto"
        id_operazione := none
        trace := [.exec (Row.operazioni dbEmpty.nextId (opColsOf dictSaldatura))] } :=
  C3_unrecognized_type_after_step1 dbEmpty dictSaldatura (by decide) (by decide)

/-- C4 fails on the code: a successful engine insert ends in a commit
performed by the engine itself (the pending set is flushed into the
visible store), and a database error makes the engine itself roll back. -/
theorem C4_counterexample :
    Effect.commit ∈ (insert_operation_data dbEmpty dictCnc true).trace ∧
    (insert_operation_data dbEmpty dictCnc true).db.pending = [] ∧
    (insert_operation_data dbEmpty dictCnc true).db.committed ≠ [] ∧
    Effect.rollback ∈ (insert_operation_data dbEmpty dictCnc false).trace := by
  refine ⟨by decide, by decide, by decide, by decide⟩

/-- C4 amended: `insert_operation_data` owns the per-record transaction
boundary itself: on success its last action is a commit (leaving nothing
pending), on a database error it rolls back; only the
unrecognized-type path returns with neither commit nor rollback. -/
theorem C4_engine_commits_itself (db : MyDB) (d : OperDict) :
    ((d.tipo_operazione = some "forgiatura" ∨ d.tipo_operazione = some "cnc") →
       (insert_operation_data db d true).success = true ∧
       (insert_operation_data db d true).trace.getLast? = some .commit ∧
       (insert_operation_data db d true).db.pending = []) ∧
    ((insert_operation_data db d false).trace = [.rollback] ∧
     (insert_operation_data db d false).db = rollbackDB db) ∧
    ((d.tipo_operazione ≠ some "forgiatura" → d.tipo_operazione ≠ some "cnc" →
       Effect.commit ∉ (insert_operation_data db d true).trace ∧
       Effect.rollback ∉ (insert_operation_data db d true).trace)) := by
  refine ⟨fun h => ?_, ⟨rfl, rfl⟩, fun h1 h2 => ?_⟩
  · rcases h with h | h <;>
    · unfold insert_operation_data
      rw [if_pos rfl, h]
      refine ⟨rfl, ?_, rfl⟩
      simp only [← List.cons_append]
      exact List.getLast?_concat _
  · rw [insert_unrecognized_eq db d h1 h2]
    simp

/-- Witness for the amended C4 at a concrete dict. -/
theorem C4_engine_commits_itself_witness :
    (insert_operation_data dbEmpty dictCnc true).success = true ∧
    (insert_operation_data dbEmpty dictCnc true).trace.getLast? = some .commit ∧
    (insert_operation_data dbEmpty dictCnc true).db.pending = [] :=
  (C4_engine_commits_itself dbEmpty dictCnc).1 (Or.inr rfl)

/-- C1 fails on the code: in a two-record batch where the second record's
insert raises a database error, the first record's operation and detail
rows are already committed and remain visible after the run returns — the
engine commits per record, so there is no batch-level rollback. -/
theorem C1_counterexample :
    (runBatch 0 [(recCnc, true), (recCnc, false)]).2 =
      [.inserted 1, .failed "Errore MySQL"] ∧
    Row.operazioni 1 ⟨none, none, none, none, .time 0, .time 0⟩ ∈
      (runBatch 0 [(recCnc, true), (recCnc, false)]).1.committed ∧
    Row.cnc 1 none none ∈
      (runBatch 0 [(recCnc, true), (recCnc, false)]).1.committed := by
  refine ⟨by decide, by decide, by decide⟩

/-- Equation for the engine's forgiatura success path. -/
theorem insert_forgiatura_eq (db : MyDB) (d : OperDict)
    (hd : d.tipo_operazione = some "forgiatura") :
    insert_operation_data db d true =
      { db := commitDB { db with
          pending := db.pending ++ [Row.operazioni db.nextId (opColsOf d)] ++
            [Row.forgiatura db.nextId d.peso_effettivo d.temperatura_effettiva] ++
            anomaliaListRows d.anomalia db.nextId
          nextId := db.nextId + 1 }
        success := true
        error := none
        id_operazione := some db.nextId
        trace := [.exec (Row.operazioni db.nextId (opColsOf d)),
                  .exec (Row.forgiatura db.nextId d.peso_effettivo d.temperatura_effettiva)] ++
                 (anomaliaListRows d.anomalia db.nextId).map .exec ++ [.commit] } := by
  unfold insert_operation_data
  rw [if_pos rfl, hd]
  rfl

/-- Equation for the engine's cnc success path. -/
theorem insert_cnc_eq (db : MyDB) (d : OperDict)
    (hd : d.tipo_operazione = some "cnc") :
    insert_operation_data db d true =
      { db := commitDB { db with
          pending := db.pending ++ [Row.operazioni db.nextId (opColsOf d)] ++
            [Row.cnc db.nextId d.numero_pezzi_ora d.tipo_fermo] ++
            anomaliaListRows d.anomalia db.nextId
          nextId := db.nextId + 1 }
        success := true
        error := none
        id_operazione := some db.nextId
        trace := [.exec (Row.operazioni db.nextId (opColsOf d)),
                  .exec (Row.cnc db.nextId d.numero_pezzi_ora d.tipo_fermo)] ++
                 (anomaliaListRows d.anomalia db.nextId).map .exec ++ [.commit] } := by
  unfold insert_operation_data
  rw [if_pos rfl, hd]
  rfl

/-- The engine never removes committed rows. -/
theorem insert_committed_mono (db : MyDB) (d : OperDict) (ok : Bool) :
    ∀ row ∈ db.committed, row ∈ (insert_operation_data db d ok).db.committed := by
  intro row hr
  cases ok with
  | false => simpa [insert_operation_data] using hr
  | true =>
    rcases hd : d.tipo_operazione with _ | s
    · rw [insert_unrecognized_eq db d (by simp [hd]) (by simp [hd])]
      exact hr
    · by_cases hf : s = "forgiatura"
      · subst hf
        rw [insert_forgiatura_eq db d hd]
        simp [commitDB, List.mem_append, hr]
      · by_cases hc : s = "cnc"
        · subst hc
          rw [insert_cnc_eq db d hd]
          simp [commitDB, List.mem_append, hr]
        · rw [insert_unrecognized_eq db d (by simp [hd]; exact hf) (by simp [hd]; exact hc)]
          exact hr

/-- One loop iteration never removes committed rows. -/
theorem processRecord_committed_mono (now : Int) (db : MyDB) (rec : RawOperazione × Bool) :
    ∀ row ∈ db.committed, row ∈ (processRecord now db rec).1.committed := by
  intro row hr
  have hmono := insert_committed_mono db (validateOperazione now rec.1).2 rec.2 row hr
  rcases hio : (insert_operation_data db (validateOperazione now rec.1).2 rec.2).id_operazione
    with _ | i <;>
    simp [processRecord, hio, hmono]

/-- When the engine returns an id, it is the AUTO_INCREMENT value and the
operation row has been committed. -/
theorem insert_id_some (db : MyDB) (d : OperDict) (ok : Bool) (i : Nat)
    (h : (insert_operation_data db d ok).id_operazione = some i) :
    i = db.nextId ∧
    Row.operazioni db.nextId (opColsOf d) ∈ (insert_operation_data db d ok).db.committed := by
  cases ok with
  | false => simp [insert_operation_data] at h
  | true =>
    rcases hd : d.tipo_operazione with _ | s
    · rw [insert_unrecognized_eq db d (by simp [hd]) (by simp [hd])] at h
      simp at h
    · by_cases hf : s = "forgiatura"
      · subst hf
        rw [insert_forgiatura_eq db d hd] at h ⊢
        simp at h
        refine ⟨h.symm, ?_⟩
        simp [commitDB, List.mem_append]
      · by_cases hc : s = "cnc"
        · subst hc
          rw [insert_cnc_eq db d hd] at h ⊢
          simp at h
          refine ⟨h.symm, ?_⟩
          simp [commitDB, List.mem_append]
        · rw [insert_unrecognized_eq db d (by simp [hd]; exact hf) (by simp [hd]; exact hc)] at h
          simp at h

/-- C1 amended: there is no batch-level rollback — the engine commits per
record, so a later record's database error cannot remove anything: rows
committed at any point stay in the visible store through the rest of the
batch, and a record reported inserted has its operation row committed
immediately (with the AUTO_INCREMENT id of that moment). -/
theorem C1_no_batch_rollback (now : Int) (db : MyDB) (recs : List (RawOperazione × Bool)) :
    (∀ row ∈ db.committed, row ∈ (runBatchAux now db recs).1.committed) ∧
    (∀ r dbOk idOp, (processRecord now db (r, dbOk)).2 = .inserted idOp →
       idOp = db.nextId ∧
       Row.operazioni db.nextId (opColsOf (validateOperazione now r).2) ∈
         (processRecord now db (r, dbOk)).1.committed) := by
  constructor
  · induction recs generalizing db with
    | nil => intro row hr; exact hr
    | cons rec rest ih =>
      intro row hr
      have hstep := processRecord_committed_mono now db rec row hr
      have hrest := ih (processRecord now db rec).1 row hstep
      simpa [runBatchAux] using hrest
  · intro r dbOk idOp h
    rcases hio : (insert_operation_data db (validateOperazione now r).2 dbOk).id_operazione
      with _ | i
    · exfalso
      have h2 : (processRecord now db (r, dbOk)).2 =
          .failed ((insert_operation_data db (validateOperazione now r).2 dbOk).error.getD "") := by
        simp [processRecord, hio]
      rw [h2] at h
      simp at h
    · have h2 : (processRecord now db (r, dbOk)).2 = .inserted i := by
        simp [processRecord, hio]
      rw [h2] at h
      have hii : i = idOp := by injection h
      subst hii
      obtain ⟨h3, h4⟩ := insert_id_some db (validateOperazione now r).2 dbOk i hio
      have h5 : (processRecord now db (r, dbOk)).1.committed =
          (insert_operation_data db (validateOperazione now r).2 dbOk).db.committed := by
        simp [processRecord, hio]
      rw [h5]
      exact ⟨h3, h4⟩

/-- Witness for the amended C1: an already committed row survives a batch
whose only record fails with a database error. -/
theorem C1_no_batch_rollback_witness :
    Row.cnc 0 none none ∈
      (runBatchAux 0 ⟨[Row.cnc 0 none none], [], 5⟩ [(recCnc, false)]).1.committed :=
  (C1_no_batch_rollback 0 ⟨[Row.cnc 0 none none], [], 5⟩ [(recCnc, false)]).1 _ (by decide)

/-- The first component of validation is always the list of violations. -/
theorem validateOperazione_fst (now : Int) (r : RawOperazione) :
    (validateOperazione now r).1 = violationsOf now r := by
  unfold validateOperazione
  split <;> rfl

/-- With no violations, validation returns the normalized record. -/
theorem validateOperazione_eq_nil (now : Int) (r : RawOperazione)
    (h : violationsOf now r = []) :
    validateOperazione now r = ([], normalizedOf now r) := by
  unfold validateOperazione
  rw [h]
  rfl

/-- With violations, validation returns the sanitized record. -/
theorem validateOperazione_snd_ne (now : Int) (r : RawOperazione)
    (h : (validateOperazione now r).1 ≠ []) :
    (validateOperazione now r).2 = sanitizedOf now r := by
  rw [validateOperazione_fst] at h
  unfold validateOperazione
  rw [if_neg (by simpa [List.isEmpty_iff] using h)]

/-- Every violating field is NULL in the sanitized record. -/
theorem violation_field_nulled (now : Int) (r : RawOperazione) (v : Violation)
    (hv : v ∈ violationsOf now r) : fieldNulled (sanitizedOf now r) v.field := by
  rcases hti : validate_and_parse_timestamp "timestamp_inizio" r.timestamp_inizio now
      with m1 | t1 <;>
  rcases htf : validate_and_parse_timestamp "timestamp_fine" r.timestamp_fine now
      with m2 | t2 <;>
  cases htp : tipo_operazione_valido r.tipo_operazione <;>
  cases hpe : peso_effettivo_range (tipoInValues r) r.peso_effettivo <;>
  cases hte : temperatura_effettiva_range (tipoInValues r) r.temperatura_effettiva <;>
  simp only [violationsOf, sanitizedOf, fieldNulled, hti, htf, htp, hpe, hte] at hv ⊢ <;>
  (try simp at hv) <;>
  (try simp) <;>
  aesop

/-- C5 fails on the code when `tipo_operazione` is the (or a) violating
field: nulling it makes the load engine reject the sanitized record, so
the record is not loaded and none of its k violation-annotation rows is
written — it is marked in error in staging instead. -/
theorem C5_counterexample :
    (validateOperazione 0 recSaldatura).1 =
      [⟨"tipo_operazione", "Tipo operazione non riconosciuto"⟩] ∧
    (processRecord 0 dbEmpty (recSaldatura, true)).2 =
      .failed "Tipo operazione non riconosciuto" ∧
    (processRecord 0 dbEmpty (recSaldatura, true)).1.committed = [] ∧
    (processRecord 0 dbEmpty (recSaldatura, true)).1.pending =
      [Row.operazioni 1 ⟨none, none, none, none, .time 0, .time 0⟩] := by
  refine ⟨by decide, by decide, by decide, by decide⟩

/-- C5 amended: a record with validation violations is not discarded —
provided the sanitized record still carries a recognized operation type
(and the database operations succeed), it is loaded with every offending
field nulled, and exactly one violation-annotation row per violation is
executed, carrying the code from the field-to-code table (default 999)
and the note `{field}: {message}`; the rows for the record's own
`anomalia` list are committed alongside it. -/
theorem C5_sanitize_and_annotate (now : Int) (db : MyDB) (r : RawOperazione)
    (hvs : (validateOperazione now r).1 ≠ [])
    (htipo : (validateOperazione now r).2.tipo_operazione = some "forgiatura" ∨
             (validateOperazione now r).2.tipo_operazione = some "cnc") :
    (processRecord now db (r, true)).2 = .inserted db.nextId ∧
    Row.operazioni db.nextId (opColsOf (validateOperazione now r).2) ∈
      (processRecord now db (r, true)).1.committed ∧
    (processRecord now db (r, true)).1.pending =
      ((validateOperazione now r).1).map (fun v =>
        Row.anomaliaOperazione (FIELD_TO_ANOMALIA_ID v.field) db.nextId
          (v.field ++ ": " ++ v.msg)) ∧
    (∀ row ∈ anomaliaListRows ((validateOperazione now r).2).anomalia db.nextId,
        row ∈ (processRecord now db (r, true)).1.committed) ∧
    (∀ v ∈ (validateOperazione now r).1, fieldNulled (validateOperazione now r).2 v.field) := by
  have hins :
      (insert_operation_data db (validateOperazione now r).2 true).id_operazione =
        some db.nextId := by
    rcases htipo with ht | ht
    · rw [insert_forgiatura_eq db _ ht]
    · rw [insert_cnc_eq db _ ht]
  have hout : (processRecord now db (r, true)).2 = .inserted db.nextId := by
    simp [processRecord, hins]
  have hcomm : (processRecord now db (r, true)).1.committed =
      (insert_operation_data db (validateOperazione now r).2 true).db.committed := by
    simp [processRecord, hins]
  have hpend : (processRecord now db (r, true)).1.pending =
      (insert_operation_data db (validateOperazione now r).2 true).db.pending ++
        violationRows (validateOperazione now r).1 db.nextId := by
    simp [processRecord, hins]
  refine ⟨hout, ?_, ?_, ?_, ?_⟩
  · rw [hcomm]
    rcases htipo with ht | ht
    · rw [insert_forgiatura_eq db _ ht]
      simp [commitDB, List.mem_append]
    · rw [insert_cnc_eq db _ ht]
      simp [commitDB, List.mem_append]
  · rw [hpend]
    have hemptyp :
        (insert_operation_data db (validateOperazione now r).2 true).db.pending = [] := by
      rcases htipo with ht | ht
      · rw [insert_forgiatura_eq db _ ht]; rfl
      · rw [insert_cnc_eq db _ ht]; rfl
    rw [hemptyp]
    simp [violationRows, anomalieOf, List.map_map]
  · intro row hrow
    rw [hcomm]
    rcases htipo with ht | ht
    · rw [insert_forgiatura_eq db _ ht]
      simp [commitDB, List.mem_append, hrow]
    · rw [insert_cnc_eq db _ ht]
      simp [commitDB, List.mem_append, hrow]
  · intro v hv
    rw [validateOperazione_fst] at hv
    rw [validateOperazione_snd_ne now r hvs]
    exact violation_field_nulled now r v hv

/-- Witness for the amended C5: the forging record with weight 1500 is
loaded with exactly one anomaly row, coded 2 for the weight field. -/
theorem C5_sanitize_and_annotate_witness :
    (processRecord 0 dbEmpty (recPeso1500, true)).2 = .inserted 1 ∧
    (processRecord 0 dbEmpty (recPeso1500, true)).1.pending =
      [Row.anomaliaOperazione 2 1 "peso_effettivo: Peso fuori range"] := by
  obtain ⟨h1, h2, h3, h4, h5⟩ :=
    C5_sanitize_and_annotate 0 dbEmpty recPeso1500 (by decide) (Or.inl (by decide))
  refine ⟨h1, ?_⟩
  rw [h3]
  decide

/-- The tolerance-checking shape of the normalizer on native values. -/
theorem validate_timestamp_time_eq (t tol now : Int) :
    validate_timestamp (.time t) tol now =
      if now + tol * 60000000 < t then .error .toleranceError else .ok t := rfl

/-- The tolerance-checking shape of the normalizer on text values. -/
theorem validate_timestamp_text_eq (s : String) (tol now : Int) :
    validate_timestamp (.text s) tol now =
      match parse_timestamp s with
      | none => .error .parseError
      | some t =>
        if now + tol * 60000000 < t then .error .toleranceError else .ok t := by
  unfold validate_timestamp
  dsimp only
  cases hp : parse_timestamp s <;> rfl

/-- A value accepted by the normalizer is accepted again as a native
timestamp. -/
theorem validate_timestamp_ok_time {ts : TsVal} {tol now t : Int}
    (h : validate_timestamp ts tol now = .ok t) :
    validate_timestamp (.time t) tol now = .ok t := by
  rw [validate_timestamp_time_eq]
  have hnot : ¬ (now + tol * 60000000 < t) := by
    cases ts with
    | time t0 =>
      rw [validate_timestamp_time_eq] at h
      split at h
      · simp at h
      · rename_i hc
        simp at h
        subst h
        exact hc
    | text s =>
      rw [validate_timestamp_text_eq] at h
      rcases hp : parse_timestamp s with _ | t0 <;> rw [hp] at h
      · simp at h
      · simp only [] at h
        split at h
        · simp at h
        · rename_i hc
          simp at h
          subst h
          exact hc
  simp [hnot]

/-- A timestamp field accepted by the pre-validator is accepted again when
resubmitted as a native value. -/
theorem validate_and_parse_ok_time {f : String} {v : Option TsVal} {now t : Int}
    (h : validate_and_parse_timestamp f v now = .ok t) :
    validate_and_parse_timestamp f (some (.time t)) now = .ok t := by
  cases v with
  | none => simp [validate_and_parse_timestamp] at h
  | some ts =>
    unfold validate_and_parse_timestamp at h ⊢
    simp only [] at h ⊢
    rcases hv : validate_timestamp ts 60 now with e | t0 <;> rw [hv] at h
    · cases e <;> simp at h
    · simp at h
      subst h
      simp [validate_timestamp_ok_time hv]

/-- C8: validation is idempotent on its own output: if a record validates
with no violations, producing the normalized record `d`, then validating
the raw image of `d` again yields no violations and the same `d`. -/
theorem C8_validate_idempotent (now : Int) (r : RawOperazione) (d : OperDict)
    (h : validateOperazione now r = ([], d)) :
    validateOperazione now (toRaw d) = ([], d) := by
  have hfst : violationsOf now r = [] := by
    have h1 := congrArg Prod.fst h
    rw [validateOperazione_fst] at h1
    exact h1
  have hd : normalizedOf now r = d :=
    congrArg Prod.snd ((validateOperazione_eq_nil now r hfst).symm.trans h)
  subst hd
  rcases hti : validate_and_parse_timestamp "timestamp_inizio" r.timestamp_inizio now
      with m1 | t1
  · exfalso
    unfold violationsOf at hfst
    rw [hti] at hfst
    simp at hfst
  rcases htf : validate_and_parse_timestamp "timestamp_fine" r.timestamp_fine now
      with m2 | t2
  · exfalso
    unfold violationsOf at hfst
    rw [hti, htf] at hfst
    simp at hfst
  cases htp : tipo_operazione_valido r.tipo_operazione with
  | false =>
    exfalso
    unfold violationsOf at hfst
    rw [hti, htf, htp] at hfst
    simp at hfst
  | true =>
  cases hpe : peso_effettivo_range (tipoInValues r) r.peso_effettivo with
  | false =>
    exfalso
    unfold violationsOf at hfst
    rw [hti, htf, htp, hpe] at hfst
    simp at hfst
  | true =>
  cases hte : temperatura_effettiva_range (tipoInValues r) r.temperatura_effettiva with
  | false =>
    exfalso
    unfold violationsOf at hfst
    rw [hti, htf, htp, hpe, hte] at hfst
    simp at hfst
  | true =>
  have e1 : validate_and_parse_timestamp "timestamp_inizio" (some (.time t1)) now = .ok t1 :=
    validate_and_parse_ok_time hti
  have e2 : validate_and_parse_timestamp "timestamp_fine" (some (.time t2)) now = .ok t2 :=
    validate_and_parse_ok_time htf
  have hcomp1 : (toRaw (normalizedOf now r)).timestamp_inizio = some (.time t1) := by
    simp [toRaw, normalizedOf, hti]
  have hcomp2 : (toRaw (normalizedOf now r)).timestamp_fine = some (.time t2) := by
    simp [toRaw, normalizedOf, htf]
  have e3 : tipo_operazione_valido (toRaw (normalizedOf now r)).tipo_operazione = true := htp
  have e4 : peso_effettivo_range (tipoInValues (toRaw (normalizedOf now r)))
      (toRaw (normalizedOf now r)).peso_effettivo = true := hpe
  have e5 : temperatura_effettiva_range (tipoInValues (toRaw (normalizedOf now r)))
      (toRaw (normalizedOf now r)).temperatura_effettiva = true := hte
  have hvsR : violationsOf now (toRaw (normalizedOf now r)) = [] := by
    unfold violationsOf
    rw [hcomp1, hcomp2, e1, e2, e3, e4, e5]
    simp
  rw [validateOperazione_eq_nil now _ hvsR]
  simp [normalizedOf, toRaw, e1, e2, hti, htf]

/-- Witness for C8 at a concrete valid cnc record. -/
theorem C8_validate_idempotent_witness :
    validateOperazione 0 (toRaw (normalizedOf 0 recCnc)) = ([], normalizedOf 0 recCnc) :=
  C8_validate_idempotent 0 recCnc (normalizedOf 0 recCnc) (by decide)

end ETL
